import Mathlib

/-!
Verification development for the docker-daemon deployer plugin.

The definitions below are a shallow embedding of `src/deployer.py`
(`DockerDaemonDeployer`).  Remote docker commands issued over the daemon
endpoint are recorded as a trace of `Cmd` values; the remote host's
container state is an explicit `HostState` threaded through the
operations.  Collaborators that live outside this repository
(`merge_env_vars`, `fatman_resource_name`, `get_tracing_header_name`,
`get_fatman_image`) are modelled from the spec, as documented on each.
-/

set_option autoImplicit false

namespace DockerDaemon

/-- Environment variable mappings (Python `Dict[str, str]`), as association
lists in insertion order. -/
abbrev EnvVars := List (String × String)

/-- Lookup of a key in an environment mapping (Python `dict` indexing). -/
def lookupEnv : EnvVars → String → Option String
  | [], _ => none
  | (k, v) :: rest, key => if key = k then some v else lookupEnv rest key

/-- The key set of an environment mapping (Python `dict.keys()`). -/
def envKeys (e : EnvVars) : List String := e.map Prod.fst

/-- Modelled from the spec: `merge_env_vars` from `racetrack_client.client.env`
(an external collaborator, not part of this repository).  It merges the second
mapping into the first; on a key collision the second mapping's value wins. -/
def merge_env_vars (a b : EnvVars) : EnvVars :=
  b ++ a.filter (fun p => (lookupEnv b p.1).isNone)

/-- `lifecycle.config.Config` fields read by the deployer. -/
structure Config where
  internal_pub_url : String
  open_telemetry_enabled : Bool
  open_telemetry_endpoint : String
  docker_registry : String
  docker_registry_namespace : String
deriving DecidableEq

/-- Workload manifest fields read by the deployer. -/
structure Manifest where
  name : String
  version : String
deriving DecidableEq

/-- `plugin_config.InfrastructureConfig` fields read by the deployer. -/
structure InfrastructureConfig where
  hostname : String
  docker_host : String
deriving DecidableEq

/-- Fatman listening port seen from inside the container (`deployer.py` line 23). -/
def FATMAN_INTERNAL_PORT : Nat := 7000

/-- Modelled from the spec: the external naming collaborator
(`racetrack_commons.deploy.resource.fatman_resource_name`) deriving a
deterministic base resource name from workload name and version; the spec
assumes only determinism and per-version uniqueness of the result. -/
def fatman_resource_name (name version : String) : String :=
  "fatman-" ++ name ++ "-v-" ++ version

/-- `DockerDaemonDeployer.get_container_name`: the base resource name for
index 0, otherwise the base with a dash and the index appended. -/
def get_container_name (resource_name : String) (container_index : Nat) : String :=
  if container_index = 0 then
    resource_name
  else
    resource_name ++ "-" ++ toString container_index

/-- Modelled from the spec: `get_tracing_header_name` from
`racetrack_commons.api.tracing` (external collaborator); returns the name of
the distributed-tracing header. -/
def get_tracing_header_name : String := "X-Request-Tracing-Id"

/-- Modelled from the spec: `get_fatman_image` from
`racetrack_commons.deploy.image` (external collaborator); resolves the image
reference for a container index, supporting per-index images. -/
def get_fatman_image (registry namespc name tag : String) (container_index : Nat) : String :=
  registry ++ "/" ++ namespc ++ "/fatman/" ++ name ++
    (if container_index = 0 then "" else "-" ++ toString container_index) ++
    ":" ++ tag

/-- Errors raised by `deploy_fatman`: the hostname assertion (line 56), the
reserved-key conflict (line 74) and a remote `CommandError` (lines 84-86). -/
inductive DeployError where
  | preconditionError (msg : String)
  | conflictError (keys : List String)
  | commandError (returncode : Int)
deriving DecidableEq

/-- The reserved/system env var set built by `deploy_fatman` (lines 59-70):
five fixed entries, the telemetry endpoint when enabled, and the
user-module-hostname entry when the topology has more than one container. -/
def common_env_vars (config : Config) (auth_token : String)
    (deployment_timestamp : Nat) (manifest_name : String)
    (entrypoint_resource_name : String) (containers_num : Nat) : EnvVars :=
  [("PUB_URL", config.internal_pub_url),
   ("FATMAN_NAME", manifest_name),
   ("AUTH_TOKEN", auth_token),
   ("FATMAN_DEPLOYMENT_TIMESTAMP", toString deployment_timestamp),
   ("REQUEST_TRACING_HEADER", get_tracing_header_name)]
  ++ (if config.open_telemetry_enabled then
        [("OPENTELEMETRY_ENDPOINT", config.open_telemetry_endpoint)]
      else [])
  ++ (if containers_num > 1 then
        [("FATMAN_USER_MODULE_HOSTNAME", get_container_name entrypoint_resource_name 1)]
      else [])

/-- The colliding keys computed on line 72:
`common_env_vars.keys() & runtime_env_vars.keys()`. -/
def conflictKeys (common runtime_env_vars : EnvVars) : List String :=
  (envKeys common).filter (fun k => (lookupEnv runtime_env_vars k).isSome)

/-- The plugin-hook merge loop of lines 77-79: each non-empty mapping returned
by the hook is merged into the running set in sequence order, later mappings
winning (Python falsy check skips both `None` and `{}`). -/
def applyPluginVars (env : EnvVars) : List (Option EnvVars) → EnvVars
  | [] => env
  | pv :: rest =>
    applyPluginVars
      (match pv with
       | some plugin_vars =>
         if plugin_vars.isEmpty then env else merge_env_vars env plugin_vars
       | none => env)
      rest

/-- Lines 72-79 of `deploy_fatman`: the conflict check against the reserved
set, the reserved merge, and the plugin-hook merge loop. -/
def composeEnv (runtime_env_vars common : EnvVars)
    (plugin_vars_list : List (Option EnvVars)) : Except DeployError EnvVars :=
  let conflicts := conflictKeys common runtime_env_vars
  if conflicts.isEmpty then
    Except.ok (applyPluginVars (merge_env_vars runtime_env_vars common) plugin_vars_list)
  else
    Except.error (DeployError.conflictError conflicts)

/-- A `docker run` invocation as assembled on lines 94-106. -/
structure RunSpec where
  name : String
  portMapping : Option (Nat × Nat)
  env : EnvVars
  pullAlways : Bool
  network : String
  labelFatmanName : String
  labelFatmanVersion : String
  image : String
deriving DecidableEq

/-- Remote docker commands issued by the deployer. -/
inductive Cmd where
  | psContainer (name : String)
  | rmContainer (name : String)
  | psPorts
  | networkCreate
  | runContainer (spec : RunSpec)
deriving DecidableEq

/-- Observable state of the remote docker host: the container names present
and the externally occupied ports reported by the port listing. -/
structure HostState where
  containers : List String
  occupiedPorts : List Nat
deriving DecidableEq

/-- The candidate ports scanned on line 147: `range(7000, 8000, 10)`. -/
def portCandidates : List Nat := (List.range 100).map (fun i => 7000 + 10 * i)

/-- The scan loop of lines 147-150: first candidate not occupied, else 8000. -/
def scanPorts : List Nat → List Nat → Nat
  | [], _ => 8000
  | p :: rest, occupied => if p ∈ occupied then scanPorts rest occupied else p

/-- `DockerDaemonDeployer._get_next_fatman_port`, given the set of occupied
ports parsed from the port listing. -/
def get_next_fatman_port (occupied : List Nat) : Nat :=
  scanPorts portCandidates occupied

/-- `DockerDaemonDeployer._delete_container_if_exists`: probe for the
container, and remove it only when present. -/
def delete_container_if_exists (st : HostState) (container_name : String) :
    List Cmd × HostState :=
  if container_name ∈ st.containers then
    ([Cmd.psContainer container_name, Cmd.rmContainer container_name],
     { st with containers := st.containers.erase container_name })
  else
    ([Cmd.psContainer container_name], st)

/-- `DockerDaemonDeployer.delete_fatman`: remove the containers of slot
indices 0 and 1, each only if present. -/
def delete_fatman (st : HostState) (fatman_name fatman_version : String) :
    List Cmd × HostState :=
  let base := fatman_resource_name fatman_name fatman_version
  let r0 := delete_container_if_exists st (get_container_name base 0)
  let r1 := delete_container_if_exists r0.2 (get_container_name base 1)
  (r0.1 ++ r1.1, r1.2)

/-- Lines 47-48 of `deploy_fatman`: if the primary container exists, delete
the prior instance first (replace semantics). -/
def replaceStep (st : HostState) (fatman_name fatman_version : String) :
    List Cmd × HostState :=
  if get_container_name (fatman_resource_name fatman_name fatman_version) 0 ∈ st.containers then
    delete_fatman st fatman_name fatman_version
  else
    ([], st)

/-- Inputs of one `deploy_fatman` call.  `auth_token` stands for the token
resolved by the external auth collaborator, `deployment_timestamp` for
`datetime_to_timestamp(now())`, `plugin_vars_list` for the sequence returned
by the single plugin-hook invocation, and `network_create_result` for the
exit of the `docker network create` command (`none` = success,
`some rc` = `CommandError` with that return code). -/
structure DeployInput where
  manifest : Manifest
  config : Config
  plugin_vars_list : List (Option EnvVars)
  tag : String
  runtime_env_vars : EnvVars
  auth_token : String
  deployment_timestamp : Nat
  containers_num : Nat
  network_create_result : Option Int
deriving DecidableEq

/-- The deployment descriptor returned on success (lines 108-118). -/
structure FatmanDto where
  name : String
  version : String
  status : String
  create_time : Nat
  update_time : Nat
  manifest : Manifest
  internal_name : String
  image_tag : String
  infrastructure_target : String
deriving DecidableEq

/-- Outcome of one `deploy_fatman` call: the trace of remote commands issued,
the resulting host state, how many times the plugin hook was invoked, and the
result (descriptor or error). -/
structure DeployOutcome where
  trace : List Cmd
  finalState : HostState
  hookInvocations : Nat
  result : Except DeployError FatmanDto

/-- The reserved env var set of a deploy call, as built on lines 59-70. -/
def reservedEnvVarsOf (inp : DeployInput) : EnvVars :=
  common_env_vars inp.config inp.auth_token inp.deployment_timestamp
    inp.manifest.name
    (fatman_resource_name inp.manifest.name inp.manifest.version)
    inp.containers_num

/-- The `docker run` invocation for one container index (lines 88-106). -/
def launchSpec (inp : DeployInput) (base : String) (fatman_port : Nat)
    (env : EnvVars) (container_index : Nat) : RunSpec :=
  { name := get_container_name base container_index
    portMapping :=
      if container_index = 0 then some (fatman_port, FATMAN_INTERNAL_PORT) else none
    env := env
    pullAlways := true
    network := "racetrack_default"
    labelFatmanName := inp.manifest.name
    labelFatmanVersion := inp.manifest.version
    image := get_fatman_image inp.config.docker_registry
      inp.config.docker_registry_namespace inp.manifest.name inp.tag container_index }

/-- The launch loop and descriptor construction (lines 88-118), reached after
the network-create step. -/
def deployLaunch (st1 : HostState) (preTrace : List Cmd)
    (infra_config : InfrastructureConfig) (infrastructure_target : String)
    (inp : DeployInput) (base : String) (fatman_port : Nat) (env : EnvVars) :
    DeployOutcome :=
  let runs := (List.range inp.containers_num).map
    (fun i => Cmd.runContainer (launchSpec inp base fatman_port env i))
  { trace := preTrace ++ [Cmd.networkCreate] ++ runs
    finalState :=
      { st1 with containers :=
          st1.containers ++ (List.range inp.containers_num).map (get_container_name base) }
    hookInvocations := 1
    result := Except.ok
      { name := inp.manifest.name
        version := inp.manifest.version
        status := "running"
        create_time := inp.deployment_timestamp
        update_time := inp.deployment_timestamp
        manifest := inp.manifest
        internal_name := infra_config.hostname ++ ":" ++ toString fatman_port
        image_tag := inp.tag
        infrastructure_target := infrastructure_target } }

/-- `DockerDaemonDeployer.deploy_fatman`, following the source order: the
existence check and replace-deletion (lines 47-48), the port listing
(line 50), the hostname assertion (line 56), the reserved set and conflict
check (lines 59-74), the reserved and plugin merges (lines 75-79), the
idempotent network creation (lines 82-86, a return code of 1 is tolerated),
the launch loop (lines 88-106) and the descriptor (lines 108-118). -/
def deploy_fatman (st : HostState) (infra_config : InfrastructureConfig)
    (infrastructure_target : String) (inp : DeployInput) : DeployOutcome :=
  let base := fatman_resource_name inp.manifest.name inp.manifest.version
  let rep := replaceStep st inp.manifest.name inp.manifest.version
  let preTrace : List Cmd :=
    Cmd.psContainer (get_container_name base 0) :: rep.1 ++ [Cmd.psPorts]
  let st1 := rep.2
  let fatman_port := get_next_fatman_port st1.occupiedPorts
  if infra_config.hostname = "" then
    { trace := preTrace
      finalState := st1
      hookInvocations := 0
      result := Except.error
        (DeployError.preconditionError "hostname of a docker daemon must be set") }
  else
    match composeEnv inp.runtime_env_vars (reservedEnvVarsOf inp) inp.plugin_vars_list with
    | Except.error e =>
      { trace := preTrace
        finalState := st1
        hookInvocations := 0
        result := Except.error e }
    | Except.ok env =>
      match inp.network_create_result with
      | some rc =>
        if rc = 1 then
          deployLaunch st1 preTrace infra_config infrastructure_target inp base fatman_port env
        else
          { trace := preTrace ++ [Cmd.networkCreate]
            finalState := st1
            hookInvocations := 1
            result := Except.error (DeployError.commandError rc) }
      | none =>
        deployLaunch st1 preTrace infra_config infrastructure_target inp base fatman_port env

/-- Projection extracting `docker run` invocations from a trace. -/
def runOf : Cmd → Option RunSpec
  | Cmd.runContainer s => some s
  | _ => none

/-- The `docker run` invocations of a trace, in order. -/
def runSpecs (trace : List Cmd) : List RunSpec := trace.filterMap runOf

/-! Concrete fixtures used to exercise the model at specific inputs. -/

/-- A sample platform configuration with telemetry disabled. -/
def sampleConfig : Config :=
  { internal_pub_url := "http://pub:7005/pub"
    open_telemetry_enabled := false
    open_telemetry_endpoint := ""
    docker_registry := "registry.example.com"
    docker_registry_namespace := "racetrack" }

/-- A sample workload manifest. -/
def sampleManifest : Manifest := { name := "adder", version := "1.0.0" }

/-- A sample infrastructure config with a hostname set. -/
def sampleInfra : InfrastructureConfig :=
  { hostname := "dockerhost", docker_host := "ssh://dockerhost" }

/-- An infrastructure config whose hostname is missing (empty). -/
def blankInfra : InfrastructureConfig :=
  { hostname := "", docker_host := "ssh://dockerhost" }

/-- A host with the sample workload's primary container already present. -/
def occupiedHost : HostState :=
  { containers := ["fatman-adder-v-1.0.0"], occupiedPorts := [7000] }

/-- A host with no containers. -/
def emptyHost : HostState := { containers := [], occupiedPorts := [] }

/-- A sample deploy input parameterized by topology size and runtime vars. -/
def sampleInput (n : Nat) (runtime : EnvVars) : DeployInput :=
  { manifest := sampleManifest
    config := sampleConfig
    plugin_vars_list := []
    tag := "latest"
    runtime_env_vars := runtime
    auth_token := "secret-token"
    deployment_timestamp := 1700000000
    containers_num := n
    network_create_result := none }

/-- The composed environment of a deploy of `sampleInput n []`:
no runtime vars, no plugin vars. -/
def sampleEnv (n : Nat) : EnvVars :=
  applyPluginVars (merge_env_vars [] (reservedEnvVarsOf (sampleInput n []))) []

/-- The primary container's run invocation in a 2-container sample deploy on
an empty host. -/
def sampleRun0 : RunSpec :=
  launchSpec (sampleInput 2 []) "fatman-adder-v-1.0.0" 7000 (sampleEnv 2) 0

/-! Helper lemmas about environment lookup and merging. -/

theorem lookupEnv_append_some {a : EnvVars} (b : EnvVars) {k : String} {v : String}
    (h : lookupEnv a k = some v) : lookupEnv (a ++ b) k = some v := by
  induction a with
  | nil => simp [lookupEnv] at h
  | cons p rest ih =>
    obtain ⟨k1, v1⟩ := p
    simp only [List.cons_append, lookupEnv] at h ⊢
    by_cases hk : k = k1
    · simpa [hk] using h
    · simp only [hk, if_false] at h ⊢
      exact ih h

theorem lookupEnv_append_none {a : EnvVars} (b : EnvVars) {k : String}
    (h : lookupEnv a k = none) : lookupEnv (a ++ b) k = lookupEnv b k := by
  induction a with
  | nil => simp
  | cons p rest ih =>
    obtain ⟨k1, v1⟩ := p
    simp only [List.cons_append, lookupEnv] at h ⊢
    by_cases hk : k = k1
    · simp [hk] at h
    · simp only [hk, if_false] at h ⊢
      exact ih h

theorem lookupEnv_filter_key (e : EnvVars) (p : String → Bool) (k : String) :
    lookupEnv (e.filter (fun x => p x.1)) k =
      if p k then lookupEnv e k else none := by
  induction e with
  | nil => simp [lookupEnv]
  | cons x rest ih =>
    obtain ⟨k1, v1⟩ := x
    by_cases hp : p k1
    · by_cases hk : k = k1
      · subst hk
        simp [List.filter, hp, lookupEnv]
      · simp [List.filter, hp, lookupEnv, hk, ih]
    · by_cases hk : k = k1
      · subst hk
        simp [List.filter, hp, lookupEnv, ih]
      · simp [List.filter, hp, lookupEnv, hk, ih]

theorem lookupEnv_merge (a b : EnvVars) (k : String) :
    lookupEnv (merge_env_vars a b) k =
      match lookupEnv b k with
      | some v => some v
      | none => lookupEnv a k := by
  unfold merge_env_vars
  cases hb : lookupEnv b k with
  | some v =>
    simpa using lookupEnv_append_some (a.filter (fun p => (lookupEnv b p.1).isNone)) hb
  | none =>
    rw [lookupEnv_append_none _ hb]
    simpa [hb] using lookupEnv_filter_key a (fun x => (lookupEnv b x).isNone) k

theorem lookupEnv_isSome_iff (e : EnvVars) (k : String) :
    (lookupEnv e k).isSome = true ↔ k ∈ envKeys e := by
  induction e with
  | nil => simp [lookupEnv, envKeys]
  | cons p rest ih =>
    obtain ⟨k1, v1⟩ := p
    by_cases hk : k = k1
    · subst hk
      simp [lookupEnv, envKeys]
    · simp [lookupEnv, envKeys, hk, ih]

theorem applyPluginVars_lookup_of_unbound (pvs : List (Option EnvVars))
    (k : String)
    (hfree : ∀ pv ∈ pvs, ∀ vars, pv = some vars → lookupEnv vars k = none) :
    ∀ env : EnvVars, lookupEnv (applyPluginVars env pvs) k = lookupEnv env k := by
  induction pvs with
  | nil => intro env; rfl
  | cons pv rest ih =>
    intro env
    have hrest : ∀ p ∈ rest, ∀ vars, p = some vars → lookupEnv vars k = none :=
      fun p hp => hfree p (List.mem_cons_of_mem _ hp)
    cases pv with
    | none => simpa [applyPluginVars] using ih hrest env
    | some vars =>
      have hv : lookupEnv vars k = none :=
        hfree (some vars) (List.mem_cons_self _ _) vars rfl
      by_cases he : vars.isEmpty
      · simpa [applyPluginVars, he] using ih hrest env
      · rw [applyPluginVars, ih hrest]
        simp [he, lookupEnv_merge, hv]

theorem applyPluginVars_append (env : EnvVars) (l1 l2 : List (Option EnvVars)) :
    applyPluginVars env (l1 ++ l2) = applyPluginVars (applyPluginVars env l1) l2 := by
  induction l1 generalizing env with
  | nil => rfl
  | cons pv rest ih => simp [applyPluginVars, ih]

theorem conflictKeys_mem_iff (common runtime : EnvVars) (k : String) :
    k ∈ conflictKeys common runtime ↔ k ∈ envKeys common ∧ k ∈ envKeys runtime := by
  unfold conflictKeys
  rw [List.mem_filter, lookupEnv_isSome_iff]

theorem conflictKeys_nil_iff (common runtime : EnvVars) :
    conflictKeys common runtime = [] ↔
      ∀ k, ¬(k ∈ envKeys common ∧ k ∈ envKeys runtime) := by
  constructor
  · intro h k hk
    have := (conflictKeys_mem_iff common runtime k).2 hk
    simp [h] at this
  · intro h
    rcases hc : conflictKeys common runtime with _ | ⟨k, rest⟩
    · rfl
    · exfalso
      have hk : k ∈ conflictKeys common runtime := by
        rw [hc]; exact List.mem_cons_self _ _
      exact h k ((conflictKeys_mem_iff common runtime k).1 hk)

/-! Helper lemmas about port allocation. -/

theorem scanPorts_spec (cands occupied : List Nat)
    (hs : cands.Pairwise (· < ·)) :
    (scanPorts cands occupied ∈ cands ∧ scanPorts cands occupied ∉ occupied ∧
      ∀ q ∈ cands, q < scanPorts cands occupied → q ∈ occupied) ∨
    ((∀ q ∈ cands, q ∈ occupied) ∧ scanPorts cands occupied = 8000) := by
  induction cands with
  | nil => right; simp [scanPorts]
  | cons p rest ih =>
    rcases List.pairwise_cons.1 hs with ⟨hlt, hrest⟩
    by_cases hp : p ∈ occupied
    · rcases ih hrest with ⟨h1, h2, h3⟩ | ⟨h1, h2⟩
      · left
        refine ⟨?_, ?_, ?_⟩
        · simp [scanPorts, hp, h1]
        · simpa [scanPorts, hp] using h2
        · intro q hq hlt2
          simp only [scanPorts, hp, if_true] at hlt2
          rcases List.mem_cons.1 hq with rfl | hq2
          · exact hp
          · exact h3 q hq2 hlt2
      · right
        constructor
        · intro q hq
          rcases List.mem_cons.1 hq with rfl | hq2
          · exact hp
          · exact h1 q hq2
        · simpa [scanPorts, hp] using h2
    · left
      refine ⟨?_, ?_, ?_⟩
      · simp [scanPorts, hp]
      · simp [scanPorts, hp]
      · intro q hq hlt2
        simp only [scanPorts, hp, if_false] at hlt2
        rcases List.mem_cons.1 hq with rfl | hq2
        · exact absurd hlt2 (lt_irrefl q)
        · exact absurd hlt2 (not_lt_of_gt (hlt q hq2))

theorem portCandidates_sorted : portCandidates.Pairwise (· < ·) := by
  have h : ∀ i j : Nat, i < j → 7000 + 10 * i < 7000 + 10 * j := by
    intro i j hij
    omega
  unfold portCandidates
  exact List.Pairwise.map _ (fun a b hab => h a b hab) (List.pairwise_lt_range 100)

/-! Helper lemmas about the delete and replace steps. -/

theorem delete_container_if_exists_trace_shape (st : HostState) (n : String) :
    ∀ c ∈ (delete_container_if_exists st n).1,
      c = Cmd.psContainer n ∨ (c = Cmd.rmContainer n ∧ n ∈ st.containers) := by
  intro c hc
  unfold delete_container_if_exists at hc
  by_cases h : n ∈ st.containers
  · simp only [h, if_true, List.mem_cons, List.mem_singleton] at hc
    rcases hc with rfl | rfl | h2
    · exact Or.inl rfl
    · exact Or.inr ⟨rfl, h⟩
    · cases h2
  · simp only [h, if_false, List.mem_singleton] at hc
    exact Or.inl hc

theorem delete_container_if_exists_ports (st : HostState) (n : String) :
    (delete_container_if_exists st n).2.occupiedPorts = st.occupiedPorts := by
  unfold delete_container_if_exists
  by_cases h : n ∈ st.containers <;> simp [h]

theorem delete_container_if_exists_containers_subset (st : HostState) (n : String) :
    ∀ m ∈ (delete_container_if_exists st n).2.containers, m ∈ st.containers := by
  intro m hm
  unfold delete_container_if_exists at hm
  by_cases h : n ∈ st.containers
  · simp only [h, if_true] at hm
    exact List.mem_of_mem_erase hm
  · simpa [h] using hm

theorem delete_fatman_trace_shape (st : HostState) (name version : String) :
    ∀ c ∈ (delete_fatman st name version).1,
      (∃ n, c = Cmd.psContainer n) ∨
      (∃ n, c = Cmd.rmContainer n ∧ n ∈ st.containers) := by
  intro c hc
  unfold delete_fatman at hc
  simp only [List.mem_append] at hc
  rcases hc with hc | hc
  · rcases delete_container_if_exists_trace_shape _ _ c hc with rfl | ⟨rfl, hmem⟩
    · exact Or.inl ⟨_, rfl⟩
    · exact Or.inr ⟨_, rfl, hmem⟩
  · rcases delete_container_if_exists_trace_shape _ _ c hc with rfl | ⟨rfl, hmem⟩
    · exact Or.inl ⟨_, rfl⟩
    · exact Or.inr ⟨_, rfl,
        delete_container_if_exists_containers_subset st _ _ hmem⟩

theorem delete_fatman_ports (st : HostState) (name version : String) :
    (delete_fatman st name version).2.occupiedPorts = st.occupiedPorts := by
  unfold delete_fatman
  rw [delete_container_if_exists_ports, delete_container_if_exists_ports]

theorem replaceStep_trace_shape (st : HostState) (name version : String) :
    ∀ c ∈ (replaceStep st name version).1,
      (∃ n, c = Cmd.psContainer n) ∨
      (∃ n, c = Cmd.rmContainer n ∧ n ∈ st.containers) := by
  intro c hc
  unfold replaceStep at hc
  by_cases h : get_container_name (fatman_resource_name name version) 0 ∈ st.containers
  · simp only [h, if_true] at hc
    exact delete_fatman_trace_shape st name version c hc
  · simp [h] at hc

theorem replaceStep_ports (st : HostState) (name version : String) :
    (replaceStep st name version).2.occupiedPorts = st.occupiedPorts := by
  unfold replaceStep
  by_cases h : get_container_name (fatman_resource_name name version) 0 ∈ st.containers
  · simp only [h, if_true]
    exact delete_fatman_ports st name version
  · simp [h]

theorem replaceStep_absent (st : HostState) (name version : String)
    (h : get_container_name (fatman_resource_name name version) 0 ∉ st.containers) :
    replaceStep st name version = ([], st) := by
  unfold replaceStep
  simp [h]

theorem runSpecs_replaceStep (st : HostState) (name version : String) :
    runSpecs (replaceStep st name version).1 = [] := by
  rw [runSpecs, List.filterMap_eq_nil_iff]
  intro c hc
  rcases replaceStep_trace_shape st name version c hc with ⟨n, rfl⟩ | ⟨n, rfl, _⟩ <;> rfl

theorem networkCreate_not_mem_replaceStep (st : HostState) (name version : String) :
    Cmd.networkCreate ∉ (replaceStep st name version).1 := by
  intro hc
  rcases replaceStep_trace_shape st name version _ hc with ⟨n, h⟩ | ⟨n, h, _⟩ <;> cases h

theorem runContainer_not_mem_replaceStep (st : HostState) (name version : String)
    (s : RunSpec) : Cmd.runContainer s ∉ (replaceStep st name version).1 := by
  intro hc
  rcases replaceStep_trace_shape st name version _ hc with ⟨n, h⟩ | ⟨n, h, _⟩ <;> cases h

theorem string_append_assoc (s t u : String) : s ++ t ++ u = s ++ (t ++ u) := by
  apply String.ext
  simp [String.data_append]

theorem preTrace_no_launch (st : HostState) (name version : String) (n : String)
    (s : RunSpec) :
    Cmd.runContainer s ∉ Cmd.psContainer n :: (replaceStep st name version).1 ++ [Cmd.psPorts] := by
  intro h
  rcases List.mem_cons.1 h with h | h
  · cases h
  · rcases List.mem_append.1 h with h | h
    · exact runContainer_not_mem_replaceStep st name version s h
    · simp at h

theorem preTrace_no_network (st : HostState) (name version : String) (n : String) :
    Cmd.networkCreate ∉ Cmd.psContainer n :: (replaceStep st name version).1 ++ [Cmd.psPorts] := by
  intro h
  rcases List.mem_cons.1 h with h | h
  · cases h
  · rcases List.mem_append.1 h with h | h
    · exact networkCreate_not_mem_replaceStep st name version h
    · simp at h

theorem composeEnv_error_iff (runtime common : EnvVars) (pvs : List (Option EnvVars)) :
    (∃ e, composeEnv runtime common pvs = Except.error e) ↔
      conflictKeys common runtime ≠ [] := by
  unfold composeEnv
  by_cases h : (conflictKeys common runtime).isEmpty
  · rw [List.isEmpty_iff] at h
    simp [h]
  · rw [List.isEmpty_iff] at h
    constructor
    · intro _; exact h
    · intro _
      refine ⟨DeployError.conflictError (conflictKeys common runtime), ?_⟩
      simp [List.isEmpty_iff, h]

theorem composeEnv_ok_eq (runtime common : EnvVars) (pvs : List (Option EnvVars))
    (env : EnvVars) (h : composeEnv runtime common pvs = Except.ok env) :
    env = applyPluginVars (merge_env_vars runtime common) pvs := by
  unfold composeEnv at h
  by_cases hc : (conflictKeys common runtime).isEmpty
  · simp only [hc, if_true] at h
    exact (Except.ok.inj h).symm
  · simp [hc] at h

theorem lookupEnv_ne_nil_of_some {vars : EnvVars} {k v : String}
    (h : lookupEnv vars k = some v) : vars.isEmpty = false := by
  cases vars with
  | nil => simp [lookupEnv] at h
  | cons p rest => rfl

theorem mem_deployLaunch_env (st1 : HostState) (preTrace : List Cmd)
    (infra : InfrastructureConfig) (tgt : String) (inp : DeployInput)
    (base : String) (port : Nat) (env : EnvVars) (s : RunSpec)
    (hpre : Cmd.runContainer s ∉ preTrace)
    (h : Cmd.runContainer s ∈ (deployLaunch st1 preTrace infra tgt inp base port env).trace) :
    s.env = env := by
  unfold deployLaunch at h
  simp only at h
  rcases List.mem_append.1 h with h | h
  · rcases List.mem_append.1 h with h | h
    · exact absurd h hpre
    · simp at h
  · rcases List.mem_map.1 h with ⟨i, _, heq⟩
    rw [← Cmd.runContainer.inj heq]
    rfl

/-! Claim theorems. -/

/-- C9: `get_container_name base index` equals `base` when `index = 0` and
`base ++ "-" ++ index` rendered in decimal otherwise; it is a pure total
function, and in particular `get_container_name base 0 = base` and
`get_container_name base 2 = base ++ "-2"`. -/
theorem C9_container_name (base : String) (index : Nat) :
    (index = 0 → get_container_name base index = base) ∧
    (index ≠ 0 → get_container_name base index = base ++ "-" ++ toString index) ∧
    get_container_name base 0 = base ∧
    get_container_name base 2 = base ++ "-2" := by
  refine ⟨fun h => by simp [get_container_name, h],
          fun h => by simp [get_container_name, h], by simp [get_container_name], ?_⟩
  show (if (2 : Nat) = 0 then base else base ++ "-" ++ toString (2 : Nat)) = base ++ "-2"
  rw [if_neg (by omega)]
  rw [show toString (2 : Nat) = "2" from rfl, string_append_assoc]
  rfl

/-- C9 witness: the theorem applied at base `"fatman-adder-v-1.0.0"` and
index 2, discharging the non-zero hypothesis. -/
theorem C9_container_name_witness :
    get_container_name "fatman-adder-v-1.0.0" 2 = "fatman-adder-v-1.0.0" ++ "-" ++ toString 2 :=
  (C9_container_name "fatman-adder-v-1.0.0" 2).2.1 (by decide)

/-- C5: `get_next_fatman_port` returns the smallest candidate in
`7000, 7010, ..., 7990` not occupied, and the fixed fallback 8000 when the
whole range is occupied; in particular `{7000, 7010, 7020}` yields 7030 and
the fully occupied range yields 8000. -/
theorem C5_next_port (occupied : List Nat) :
    ((get_next_fatman_port occupied ∈ portCandidates ∧
      get_next_fatman_port occupied ∉ occupied ∧
      ∀ q ∈ portCandidates, q < get_next_fatman_port occupied → q ∈ occupied) ∨
     ((∀ q ∈ portCandidates, q ∈ occupied) ∧ get_next_fatman_port occupied = 8000)) ∧
    get_next_fatman_port [7000, 7010, 7020] = 7030 ∧
    get_next_fatman_port portCandidates = 8000 := by
  refine ⟨scanPorts_spec portCandidates occupied portCandidates_sorted, by decide, ?_⟩
  have h := scanPorts_spec portCandidates portCandidates portCandidates_sorted
  rcases h with ⟨h1, h2, _⟩ | ⟨_, h2⟩
  · exact absurd h1 h2
  · exact h2

/-- C5 witness: the allocation theorem applied to the occupied set
{7000, 7010, 7020}, where the inner minimality hypotheses are exercised. -/
theorem C5_next_port_witness : get_next_fatman_port [7000, 7010, 7020] = 7030 :=
  (C5_next_port [7000, 7010, 7020]).2.1

/-- C4: the env composition of lines 72-79 fails with a Conflict error if and
only if some key is both runtime-supplied and reserved; the error names
exactly the colliding keys; and on such a failure the deploy issues no
container launch command. -/
theorem C4_conflict_iff (runtime common : EnvVars) (pvs : List (Option EnvVars)) :
    ((∃ e, composeEnv runtime common pvs = Except.error e) ↔
      ∃ k, k ∈ envKeys runtime ∧ k ∈ envKeys common) ∧
    (∀ k, k ∈ conflictKeys common runtime ↔
      (k ∈ envKeys runtime ∧ k ∈ envKeys common)) ∧
    (∀ e, composeEnv runtime common pvs = Except.error e →
      e = DeployError.conflictError (conflictKeys common runtime)) ∧
    (∀ (st : HostState) (infra : InfrastructureConfig) (tgt : String)
        (inp : DeployInput) (err : DeployError),
      composeEnv inp.runtime_env_vars (reservedEnvVarsOf inp) inp.plugin_vars_list =
        Except.error err →
      ∀ s, Cmd.runContainer s ∉ (deploy_fatman st infra tgt inp).trace) := by
  refine ⟨?_, ?_, ?_, ?_⟩
  · rw [composeEnv_error_iff]
    rw [Ne, conflictKeys_nil_iff]
    push_neg
    constructor
    · rintro ⟨k, h1, h2⟩; exact ⟨k, h2, h1⟩
    · rintro ⟨k, h1, h2⟩; exact ⟨k, h2, h1⟩
  · intro k
    rw [conflictKeys_mem_iff]
    exact ⟨fun h => ⟨h.2, h.1⟩, fun h => ⟨h.2, h.1⟩⟩
  · intro e he
    unfold composeEnv at he
    by_cases h : (conflictKeys common runtime).isEmpty
    · simp [h] at he
    · simp only [h, if_false] at he
      exact (Except.error.inj he).symm
  · intro st infra tgt inp err herr s
    simp only [deploy_fatman, herr]
    by_cases hhost : infra.hostname = ""
    · simp only [hhost, if_pos rfl]
      exact preTrace_no_launch st inp.manifest.name inp.manifest.version _ s
    · simp only [hhost, if_false]
      exact preTrace_no_launch st inp.manifest.name inp.manifest.version _ s

/-- C4 witness: with runtime vars containing the reserved key FATMAN_NAME,
composition fails naming that key and the deploy launches nothing. -/
theorem C4_conflict_iff_witness :
    (∃ e, composeEnv [("FATMAN_NAME", "x")]
        (reservedEnvVarsOf (sampleInput 1 [("FATMAN_NAME", "x")])) [] = Except.error e) ∧
    ∀ s, Cmd.runContainer s ∉
      (deploy_fatman emptyHost sampleInfra "docker-daemon"
        (sampleInput 1 [("FATMAN_NAME", "x")])).trace := by
  constructor
  · exact (C4_conflict_iff [("FATMAN_NAME", "x")]
      (reservedEnvVarsOf (sampleInput 1 [("FATMAN_NAME", "x")])) []).1.2
      ⟨"FATMAN_NAME", by decide, by decide⟩
  · exact fun s => (C4_conflict_iff [("FATMAN_NAME", "x")]
      (reservedEnvVarsOf (sampleInput 1 [("FATMAN_NAME", "x")])) []).2.2.2
      emptyHost sampleInfra "docker-daemon" (sampleInput 1 [("FATMAN_NAME", "x")])
      (DeployError.conflictError ["FATMAN_NAME"]) rfl s

/-- C10: the reserved set is built per call: with a single container the
user-module-hostname key is not reserved, and with telemetry disabled the
telemetry-endpoint key is not reserved; such a key therefore never appears
among the conflict keys, and a caller-supplied binding of it survives into
the composed environment (when no extension rebinds it). -/
theorem C10_conditional_reserved (config : Config) (auth_token : String)
    (ts : Nat) (mname base : String) (runtime : EnvVars)
    (pvs : List (Option EnvVars)) :
    lookupEnv (common_env_vars config auth_token ts mname base 1)
      "FATMAN_USER_MODULE_HOSTNAME" = none ∧
    (∀ n : Nat, config.open_telemetry_enabled = false →
      lookupEnv (common_env_vars config auth_token ts mname base n)
        "OPENTELEMETRY_ENDPOINT" = none) ∧
    "FATMAN_USER_MODULE_HOSTNAME" ∉
      conflictKeys (common_env_vars config auth_token ts mname base 1) runtime ∧
    (config.open_telemetry_enabled = false →
      "OPENTELEMETRY_ENDPOINT" ∉
        conflictKeys (common_env_vars config auth_token ts mname base 1) runtime) ∧
    (∀ (k v : String) (env : EnvVars),
      composeEnv runtime (common_env_vars config auth_token ts mname base 1) pvs =
        Except.ok env →
      lookupEnv runtime k = some v →
      lookupEnv (common_env_vars config auth_token ts mname base 1) k = none →
      (∀ pv ∈ pvs, ∀ vars, pv = some vars → lookupEnv vars k = none) →
      lookupEnv env k = some v) := by
  have hmodule : lookupEnv (common_env_vars config auth_token ts mname base 1)
      "FATMAN_USER_MODULE_HOSTNAME" = none := by
    cases htel : config.open_telemetry_enabled <;>
      simp [common_env_vars, htel, lookupEnv]
  have hnotmem : ∀ k, lookupEnv (common_env_vars config auth_token ts mname base 1) k = none →
      k ∉ conflictKeys (common_env_vars config auth_token ts mname base 1) runtime := by
    intro k hnone hmem
    have h1 := ((conflictKeys_mem_iff _ _ _).1 hmem).1
    rw [← lookupEnv_isSome_iff, hnone] at h1
    simp at h1
  refine ⟨hmodule, ?_, hnotmem _ hmodule, ?_, ?_⟩
  · intro n htel
    by_cases hn : n > 1 <;> simp [common_env_vars, htel, hn, lookupEnv]
  · intro htel
    refine hnotmem _ ?_
    simp [common_env_vars, htel, lookupEnv]
  · intro k v env hok hrun hres hfree
    rw [composeEnv_ok_eq _ _ _ _ hok,
        applyPluginVars_lookup_of_unbound pvs k hfree, lookupEnv_merge, hres, hrun]

/-- C10 witness: with one container and telemetry off, a caller-supplied
FATMAN_USER_MODULE_HOSTNAME raises no conflict and survives composition. -/
theorem C10_conditional_reserved_witness :
    lookupEnv (common_env_vars sampleConfig "secret-token" 1700000000 "adder"
      "fatman-adder-v-1.0.0" 1) "FATMAN_USER_MODULE_HOSTNAME" = none ∧
    "FATMAN_USER_MODULE_HOSTNAME" ∉
      conflictKeys (common_env_vars sampleConfig "secret-token" 1700000000 "adder"
        "fatman-adder-v-1.0.0" 1) [("FATMAN_USER_MODULE_HOSTNAME", "own-host")] ∧
    lookupEnv
      (applyPluginVars
        (merge_env_vars [("FATMAN_USER_MODULE_HOSTNAME", "own-host")]
          (common_env_vars sampleConfig "secret-token" 1700000000 "adder"
            "fatman-adder-v-1.0.0" 1)) [])
      "FATMAN_USER_MODULE_HOSTNAME" = some "own-host" := by
  have h := C10_conditional_reserved sampleConfig "secret-token" 1700000000 "adder"
    "fatman-adder-v-1.0.0" [("FATMAN_USER_MODULE_HOSTNAME", "own-host")] []
  refine ⟨h.1, h.2.2.1, ?_⟩
  exact h.2.2.2.2 "FATMAN_USER_MODULE_HOSTNAME" "own-host" _ rfl rfl h.1 (by simp)

/-- C7 counterexample: the claim says the extension hook is invoked exactly
once for every deploy call, but a deploy rejected by the reserved-key
conflict check raises before the hook invocation on line 76: this concrete
deploy invokes the hook zero times. -/
theorem C7_counterexample :
    (deploy_fatman emptyHost sampleInfra "docker-daemon"
      (sampleInput 1 [("FATMAN_NAME", "x")])).hookInvocations ≠ 1 := by decide

/-- C7 (amended): for every deploy that passes the hostname precondition and
the reserved-key conflict check the extension hook is invoked exactly once
(even if network creation fails afterwards); and each mapping returned by the
hook is merged in sequence order with later-wins precedence: a key bound by a
non-empty mapping and not rebound by any later mapping ends with that value,
overriding runtime, reserved and earlier extension bindings, with no Conflict
error involved. -/
theorem C7_plugin_hook :
    (∀ (st : HostState) (infra : InfrastructureConfig) (tgt : String)
        (inp : DeployInput) (env : EnvVars),
      infra.hostname ≠ "" →
      composeEnv inp.runtime_env_vars (reservedEnvVarsOf inp) inp.plugin_vars_list =
        Except.ok env →
      (deploy_fatman st infra tgt inp).hookInvocations = 1) ∧
    (∀ (runtime common : EnvVars) (front back : List (Option EnvVars))
        (vars env : EnvVars) (k v : String),
      composeEnv runtime common (front ++ some vars :: back) = Except.ok env →
      lookupEnv vars k = some v →
      (∀ pv ∈ back, ∀ vars2, pv = some vars2 → lookupEnv vars2 k = none) →
      lookupEnv env k = some v) := by
  constructor
  · intro st infra tgt inp env hhost hok
    simp only [deploy_fatman, hok, hhost, if_false]
    cases hnet : inp.network_create_result with
    | none => rfl
    | some rc =>
      by_cases hrc : rc = 1 <;> simp [hrc, deployLaunch]
  · intro runtime common front back vars env k v hok hv hfree
    rw [composeEnv_ok_eq _ _ _ _ hok, applyPluginVars_append, applyPluginVars,
        applyPluginVars_lookup_of_unbound back k hfree]
    rw [lookupEnv_ne_nil_of_some hv]
    simp only [Bool.false_eq_true, if_false]
    rw [lookupEnv_merge, hv]

/-- C7 witness: a successful sample deploy invokes the hook once, and a
later extension mapping wins over an earlier one and the reserved set. -/
theorem C7_plugin_hook_witness :
    (deploy_fatman emptyHost sampleInfra "docker-daemon"
      (sampleInput 1 [])).hookInvocations = 1 ∧
    lookupEnv
      (applyPluginVars
        (merge_env_vars [] (common_env_vars sampleConfig "secret-token" 1700000000 "adder"
          "fatman-adder-v-1.0.0" 1))
        [some [("FATMAN_NAME", "first")], some [("FATMAN_NAME", "second")]])
      "FATMAN_NAME" = some "second" := by
  constructor
  · exact C7_plugin_hook.1 emptyHost sampleInfra "docker-daemon" (sampleInput 1 [])
      (sampleEnv 1) (by decide) rfl
  · exact C7_plugin_hook.2 []
      (common_env_vars sampleConfig "secret-token" 1700000000 "adder"
        "fatman-adder-v-1.0.0" 1)
      [some [("FATMAN_NAME", "first")]] [] [("FATMAN_NAME", "second")] _
      "FATMAN_NAME" "second" rfl rfl (by simp)

/-- C1 counterexample: in a 2-container deploy the reserved secondary-hostname
variable holds `get_container_name base 1` (the base with `-1` appended), not
`get_container_name base 0` (the bare base) as the claim states. -/
theorem C1_counterexample :
    lookupEnv (reservedEnvVarsOf (sampleInput 2 [])) "FATMAN_USER_MODULE_HOSTNAME" =
      some (get_container_name "fatman-adder-v-1.0.0" 1) ∧
    get_container_name "fatman-adder-v-1.0.0" 1 ≠
      get_container_name "fatman-adder-v-1.0.0" 0 := by
  constructor
  · rfl
  · decide

/-- C1 (amended): for every deploy with more than one container, the reserved
set includes FATMAN_USER_MODULE_HOSTNAME whose value is
`get_container_name base 1` — the name of the container at index 1, not
index 0 — and every launched container receives that binding in its
environment (when no extension rebinds the key). -/
theorem C1_secondary_hostname :
    (∀ (config : Config) (token : String) (ts : Nat) (mname base : String) (n : Nat),
      1 < n →
      lookupEnv (common_env_vars config token ts mname base n)
        "FATMAN_USER_MODULE_HOSTNAME" = some (get_container_name base 1)) ∧
    (∀ (st : HostState) (infra : InfrastructureConfig) (tgt : String)
        (inp : DeployInput) (s : RunSpec),
      (∀ pv ∈ inp.plugin_vars_list, ∀ vars, pv = some vars →
        lookupEnv vars "FATMAN_USER_MODULE_HOSTNAME" = none) →
      1 < inp.containers_num →
      Cmd.runContainer s ∈ (deploy_fatman st infra tgt inp).trace →
      lookupEnv s.env "FATMAN_USER_MODULE_HOSTNAME" =
        some (get_container_name
          (fatman_resource_name inp.manifest.name inp.manifest.version) 1)) := by
  have hpart1 : ∀ (config : Config) (token : String) (ts : Nat)
      (mname base : String) (n : Nat), 1 < n →
      lookupEnv (common_env_vars config token ts mname base n)
        "FATMAN_USER_MODULE_HOSTNAME" = some (get_container_name base 1) := by
    intro config token ts mname base n hn
    cases htel : config.open_telemetry_enabled <;>
      simp [common_env_vars, htel, hn, lookupEnv]
  refine ⟨hpart1, ?_⟩
  intro st infra tgt inp s hfree hn hmem
  simp only [deploy_fatman] at hmem
  by_cases hhost : infra.hostname = ""
  · rw [if_pos hhost] at hmem
    exact absurd hmem (preTrace_no_launch st inp.manifest.name inp.manifest.version _ s)
  · rw [if_neg hhost] at hmem
    cases hcomp : composeEnv inp.runtime_env_vars (reservedEnvVarsOf inp)
        inp.plugin_vars_list with
    | error e =>
      simp only [hcomp] at hmem
      exact absurd hmem (preTrace_no_launch st inp.manifest.name inp.manifest.version _ s)
    | ok env =>
      simp only [hcomp] at hmem
      have henv : s.env = env → lookupEnv s.env "FATMAN_USER_MODULE_HOSTNAME" =
          some (get_container_name
            (fatman_resource_name inp.manifest.name inp.manifest.version) 1) := by
        intro hse
        rw [hse, composeEnv_ok_eq _ _ _ _ hcomp,
            applyPluginVars_lookup_of_unbound _ _ hfree, lookupEnv_merge,
            reservedEnvVarsOf, hpart1 _ _ _ _ _ _ hn]
      cases hnet : inp.network_create_result with
      | none =>
        simp only [hnet] at hmem
        exact henv (mem_deployLaunch_env _ _ _ _ _ _ _ _ s
          (preTrace_no_launch st inp.manifest.name inp.manifest.version _ s) hmem)
      | some rc =>
        simp only [hnet] at hmem
        by_cases hrc : rc = 1
        · rw [if_pos hrc] at hmem
          exact henv (mem_deployLaunch_env _ _ _ _ _ _ _ _ s
            (preTrace_no_launch st inp.manifest.name inp.manifest.version _ s) hmem)
        · rw [if_neg hrc] at hmem
          rcases List.mem_append.1 hmem with h | h
          · exact absurd h (preTrace_no_launch st inp.manifest.name inp.manifest.version _ s)
          · simp at h

/-- C1 witness: the amended theorem applied to a concrete 2-container deploy
on an empty host; the primary container's environment carries the index-1
container name. -/
theorem C1_secondary_hostname_witness :
    lookupEnv (common_env_vars sampleConfig "secret-token" 1700000000 "adder"
      "fatman-adder-v-1.0.0" 2) "FATMAN_USER_MODULE_HOSTNAME" =
      some (get_container_name "fatman-adder-v-1.0.0" 1) ∧
    lookupEnv sampleRun0.env "FATMAN_USER_MODULE_HOSTNAME" =
      some (get_container_name "fatman-adder-v-1.0.0" 1) :=
  ⟨C1_secondary_hostname.1 sampleConfig "secret-token" 1700000000 "adder"
      "fatman-adder-v-1.0.0" 2 (by decide),
   C1_secondary_hostname.2 emptyHost sampleInfra "docker-daemon" (sampleInput 2 [])
      sampleRun0 (by simp [sampleInput]) (by decide) (by decide)⟩

/-- C2 counterexample: with an empty hostname the deploy does fail with the
precondition error, but only after remote commands were already issued: this
concrete trace contains the existence check, the replace-deletion and the
port listing, contradicting the claim that no remote command happens. -/
theorem C2_counterexample :
    blankInfra.hostname = "" ∧
    (deploy_fatman occupiedHost blankInfra "docker-daemon" (sampleInput 1 [])).result =
      Except.error (DeployError.preconditionError "hostname of a docker daemon must be set") ∧
    Cmd.psContainer "fatman-adder-v-1.0.0" ∈
      (deploy_fatman occupiedHost blankInfra "docker-daemon" (sampleInput 1 [])).trace ∧
    Cmd.rmContainer "fatman-adder-v-1.0.0" ∈
      (deploy_fatman occupiedHost blankInfra "docker-daemon" (sampleInput 1 [])).trace ∧
    Cmd.psPorts ∈
      (deploy_fatman occupiedHost blankInfra "docker-daemon" (sampleInput 1 [])).trace :=
  ⟨rfl, rfl, by decide, by decide, by decide⟩

/-- C2 (amended): deploying with an empty infrastructure hostname fails with
the precondition error before network creation and before any container
launch — no network-create and no run command is issued and the plugin hook
is not invoked — though the existence check, any replace-deletion and the
port listing have already run by then. -/
theorem C2_missing_hostname (st : HostState) (infra : InfrastructureConfig)
    (tgt : String) (inp : DeployInput) (h : infra.hostname = "") :
    (deploy_fatman st infra tgt inp).result =
      Except.error (DeployError.preconditionError "hostname of a docker daemon must be set") ∧
    (∀ s : RunSpec, Cmd.runContainer s ∉ (deploy_fatman st infra tgt inp).trace) ∧
    Cmd.networkCreate ∉ (deploy_fatman st infra tgt inp).trace ∧
    (deploy_fatman st infra tgt inp).hookInvocations = 0 := by
  have hred : deploy_fatman st infra tgt inp =
      { trace := Cmd.psContainer
            (get_container_name (fatman_resource_name inp.manifest.name inp.manifest.version) 0) ::
          (replaceStep st inp.manifest.name inp.manifest.version).1 ++ [Cmd.psPorts]
        finalState := (replaceStep st inp.manifest.name inp.manifest.version).2
        hookInvocations := 0
        result := Except.error
          (DeployError.preconditionError "hostname of a docker daemon must be set") } := by
    simp only [deploy_fatman]
    rw [if_pos h]
  rw [hred]
  exact ⟨rfl,
    fun s => preTrace_no_launch st inp.manifest.name inp.manifest.version _ s,
    preTrace_no_network st inp.manifest.name inp.manifest.version _, rfl⟩

/-- C2 witness: the amended theorem applied to a concrete deploy with an
empty hostname. -/
theorem C2_missing_hostname_witness :
    (deploy_fatman emptyHost blankInfra "docker-daemon" (sampleInput 1 [])).result =
      Except.error (DeployError.preconditionError "hostname of a docker daemon must be set") ∧
    (∀ s : RunSpec, Cmd.runContainer s ∉
      (deploy_fatman emptyHost blankInfra "docker-daemon" (sampleInput 1 [])).trace) ∧
    Cmd.networkCreate ∉
      (deploy_fatman emptyHost blankInfra "docker-daemon" (sampleInput 1 [])).trace ∧
    (deploy_fatman emptyHost blankInfra "docker-daemon" (sampleInput 1 [])).hookInvocations = 0 :=
  C2_missing_hostname emptyHost blankInfra "docker-daemon" (sampleInput 1 []) rfl

/-- C3 counterexample: a deploy whose composition fails with a Conflict error
can still change the remote host's container state, because the
replace-deletion of the prior instance (lines 47-48) runs before the conflict
check (lines 72-74): here the pre-existing container is gone afterwards. -/
theorem C3_counterexample :
    composeEnv [("FATMAN_NAME", "x")]
      (reservedEnvVarsOf (sampleInput 1 [("FATMAN_NAME", "x")])) [] =
      Except.error (DeployError.conflictError ["FATMAN_NAME"]) ∧
    (deploy_fatman occupiedHost sampleInfra "docker-daemon"
      (sampleInput 1 [("FATMAN_NAME", "x")])).finalState ≠ occupiedHost :=
  ⟨rfl, by decide⟩

/-- C3 (amended): when composition fails with a Conflict error, the deploy
returns that error, no container is launched and no network is created; the
only possible state change is the replace-deletion of the prior instance, so
if the workload was not already deployed the host state is unchanged. -/
theorem C3_conflict_aborts (st : HostState) (infra : InfrastructureConfig)
    (tgt : String) (inp : DeployInput) (err : DeployError)
    (hhost : infra.hostname ≠ "")
    (herr : composeEnv inp.runtime_env_vars (reservedEnvVarsOf inp)
      inp.plugin_vars_list = Except.error err) :
    (deploy_fatman st infra tgt inp).result = Except.error err ∧
    (∀ s : RunSpec, Cmd.runContainer s ∉ (deploy_fatman st infra tgt inp).trace) ∧
    Cmd.networkCreate ∉ (deploy_fatman st infra tgt inp).trace ∧
    (get_container_name (fatman_resource_name inp.manifest.name inp.manifest.version) 0 ∉
        st.containers →
      (deploy_fatman st infra tgt inp).finalState = st) := by
  have hred : deploy_fatman st infra tgt inp =
      { trace := Cmd.psContainer
            (get_container_name (fatman_resource_name inp.manifest.name inp.manifest.version) 0) ::
          (replaceStep st inp.manifest.name inp.manifest.version).1 ++ [Cmd.psPorts]
        finalState := (replaceStep st inp.manifest.name inp.manifest.version).2
        hookInvocations := 0
        result := Except.error err } := by
    simp only [deploy_fatman, herr]
    rw [if_neg hhost]
  rw [hred]
  refine ⟨rfl,
    fun s => preTrace_no_launch st inp.manifest.name inp.manifest.version _ s,
    preTrace_no_network st inp.manifest.name inp.manifest.version _, ?_⟩
  intro habs
  simp only [replaceStep_absent st inp.manifest.name inp.manifest.version habs]

/-- C3 witness: the amended theorem applied to a conflicting deploy on a host
where the workload was never deployed: the error is returned and the state is
untouched. -/
theorem C3_conflict_aborts_witness :
    (deploy_fatman emptyHost sampleInfra "docker-daemon"
      (sampleInput 1 [("FATMAN_NAME", "x")])).result =
      Except.error (DeployError.conflictError ["FATMAN_NAME"]) ∧
    (deploy_fatman emptyHost sampleInfra "docker-daemon"
      (sampleInput 1 [("FATMAN_NAME", "x")])).finalState = emptyHost := by
  have h := C3_conflict_aborts emptyHost sampleInfra "docker-daemon"
    (sampleInput 1 [("FATMAN_NAME", "x")])
    (DeployError.conflictError ["FATMAN_NAME"]) (by decide) rfl
  exact ⟨h.1, h.2.2.2 (by decide)⟩

/-- C8: delete probes and removes only the containers of slot indices 0
and 1; every removal targets one of those two names and only when that
container is currently present; deleting a never-deployed workload issues
the two probes, removes nothing, changes nothing and produces no error. -/
theorem C8_delete_two_slots (st : HostState) (name version : String) :
    (∀ n, Cmd.psContainer n ∈ (delete_fatman st name version).1 →
      (n = get_container_name (fatman_resource_name name version) 0 ∨
       n = get_container_name (fatman_resource_name name version) 1)) ∧
    (∀ n, Cmd.rmContainer n ∈ (delete_fatman st name version).1 →
      ((n = get_container_name (fatman_resource_name name version) 0 ∨
        n = get_container_name (fatman_resource_name name version) 1) ∧
       n ∈ st.containers)) ∧
    (get_container_name (fatman_resource_name name version) 0 ∉ st.containers →
     get_container_name (fatman_resource_name name version) 1 ∉ st.containers →
      (delete_fatman st name version).1 =
        [Cmd.psContainer (get_container_name (fatman_resource_name name version) 0),
         Cmd.psContainer (get_container_name (fatman_resource_name name version) 1)] ∧
      (delete_fatman st name version).2 = st) := by
  refine ⟨?_, ?_, ?_⟩
  · intro n hn
    unfold delete_fatman at hn
    rcases List.mem_append.1 hn with h | h
    · rcases delete_container_if_exists_trace_shape _ _ _ h with heq | ⟨heq, _⟩
      · exact Or.inl (Cmd.psContainer.inj heq)
      · cases heq
    · rcases delete_container_if_exists_trace_shape _ _ _ h with heq | ⟨heq, _⟩
      · exact Or.inr (Cmd.psContainer.inj heq)
      · cases heq
  · intro n hn
    unfold delete_fatman at hn
    rcases List.mem_append.1 hn with h | h
    · rcases delete_container_if_exists_trace_shape _ _ _ h with heq | ⟨heq, hmem⟩
      · cases heq
      · exact ⟨Or.inl (Cmd.rmContainer.inj heq), Cmd.rmContainer.inj heq ▸ hmem⟩
    · rcases delete_container_if_exists_trace_shape _ _ _ h with heq | ⟨heq, hmem⟩
      · cases heq
      · refine ⟨Or.inr (Cmd.rmContainer.inj heq), ?_⟩
        exact Cmd.rmContainer.inj heq ▸
          delete_container_if_exists_containers_subset st _ _ hmem
  · intro h0 h1
    have hd0 : delete_container_if_exists st
        (get_container_name (fatman_resource_name name version) 0) =
        ([Cmd.psContainer (get_container_name (fatman_resource_name name version) 0)], st) := by
      unfold delete_container_if_exists
      rw [if_neg h0]
    have hd1 : delete_container_if_exists st
        (get_container_name (fatman_resource_name name version) 1) =
        ([Cmd.psContainer (get_container_name (fatman_resource_name name version) 1)], st) := by
      unfold delete_container_if_exists
      rw [if_neg h1]
    simp [delete_fatman, hd0, hd1]

/-- C8 witness: deleting the sample workload on an empty host issues exactly
the two probes and leaves the host unchanged. -/
theorem C8_delete_two_slots_witness :
    (delete_fatman emptyHost "adder" "1.0.0").1 =
      [Cmd.psContainer (get_container_name (fatman_resource_name "adder" "1.0.0") 0),
       Cmd.psContainer (get_container_name (fatman_resource_name "adder" "1.0.0") 1)] ∧
    (delete_fatman emptyHost "adder" "1.0.0").2 = emptyHost :=
  (C8_delete_two_slots emptyHost "adder" "1.0.0").2.2 (by decide) (by decide)

theorem runSpecs_preTrace (st : HostState) (name version : String) (n : String) :
    runSpecs (Cmd.psContainer n :: (replaceStep st name version).1 ++ [Cmd.psPorts]) = [] := by
  rw [runSpecs, List.filterMap_eq_nil_iff]
  intro c hc
  rcases List.mem_cons.1 hc with rfl | hc
  · rfl
  · rcases List.mem_append.1 hc with hc | hc
    · rcases replaceStep_trace_shape st name version c hc with ⟨m, rfl⟩ | ⟨m, rfl, _⟩ <;> rfl
    · simp only [List.mem_singleton] at hc
      subst hc
      rfl

theorem runSpecs_deployLaunch (st1 : HostState) (pre : List Cmd)
    (infra : InfrastructureConfig) (tgt : String) (inp : DeployInput)
    (base : String) (port : Nat) (env : EnvVars) (hpre : runSpecs pre = []) :
    runSpecs (deployLaunch st1 pre infra tgt inp base port env).trace =
      (List.range inp.containers_num).map (launchSpec inp base port env) := by
  unfold runSpecs at hpre ⊢
  unfold deployLaunch
  simp only [List.filterMap_append, hpre, List.filterMap_map]
  have h1 : List.filterMap runOf [Cmd.networkCreate] = [] := rfl
  rw [h1]
  simp only [List.nil_append]
  have h2 : (runOf ∘ fun i => Cmd.runContainer (launchSpec inp base port env i)) =
      some ∘ launchSpec inp base port env := rfl
  rw [h2, List.filterMap_eq_map]

/-- C6: every successful deploy with `containers_num = N >= 1` issues exactly
N run commands, the i-th named `get_container_name base i`, attached to the
shared network `racetrack_default`, labeled with the workload name and
version, with always-pull policy, all sharing the composed environment; only
index 0 carries the external port mapping, to the allocated port. -/
theorem C6_launch_topology (st : HostState) (infra : InfrastructureConfig)
    (tgt : String) (inp : DeployInput) (_hN : 1 ≤ inp.containers_num)
    (hok : ∃ dto, (deploy_fatman st infra tgt inp).result = Except.ok dto) :
    ∃ env, composeEnv inp.runtime_env_vars (reservedEnvVarsOf inp)
        inp.plugin_vars_list = Except.ok env ∧
      (runSpecs (deploy_fatman st infra tgt inp).trace).length = inp.containers_num ∧
      ∀ i, i < inp.containers_num →
        (runSpecs (deploy_fatman st infra tgt inp).trace)[i]? = some
          { name := get_container_name
              (fatman_resource_name inp.manifest.name inp.manifest.version) i
            portMapping :=
              if i = 0 then some (get_next_fatman_port st.occupiedPorts, FATMAN_INTERNAL_PORT)
              else none
            env := env
            pullAlways := true
            network := "racetrack_default"
            labelFatmanName := inp.manifest.name
            labelFatmanVersion := inp.manifest.version
            image := get_fatman_image inp.config.docker_registry
              inp.config.docker_registry_namespace inp.manifest.name inp.tag i } := by
  obtain ⟨dto, hok⟩ := hok
  by_cases hhost : infra.hostname = ""
  · exfalso
    simp only [deploy_fatman] at hok
    rw [if_pos hhost] at hok
    simp at hok
  · cases hcomp : composeEnv inp.runtime_env_vars (reservedEnvVarsOf inp)
        inp.plugin_vars_list with
    | error e =>
      exfalso
      simp only [deploy_fatman, hcomp] at hok
      rw [if_neg hhost] at hok
      simp at hok
    | ok env =>
      refine ⟨env, rfl, ?_⟩
      have hpre := runSpecs_preTrace st inp.manifest.name inp.manifest.version
        (get_container_name (fatman_resource_name inp.manifest.name inp.manifest.version) 0)
      have hports := replaceStep_ports st inp.manifest.name inp.manifest.version
      have hfinish : ∀ st1 pre, runSpecs pre = [] →
          st1.occupiedPorts = st.occupiedPorts →
          (runSpecs (deployLaunch st1 pre infra tgt inp
              (fatman_resource_name inp.manifest.name inp.manifest.version)
              (get_next_fatman_port st1.occupiedPorts) env).trace).length =
            inp.containers_num ∧
          ∀ i, i < inp.containers_num →
            (runSpecs (deployLaunch st1 pre infra tgt inp
                (fatman_resource_name inp.manifest.name inp.manifest.version)
                (get_next_fatman_port st1.occupiedPorts) env).trace)[i]? = some
              { name := get_container_name
                  (fatman_resource_name inp.manifest.name inp.manifest.version) i
                portMapping :=
                  if i = 0 then
                    some (get_next_fatman_port st.occupiedPorts, FATMAN_INTERNAL_PORT)
                  else none
                env := env
                pullAlways := true
                network := "racetrack_default"
                labelFatmanName := inp.manifest.name
                labelFatmanVersion := inp.manifest.version
                image := get_fatman_image inp.config.docker_registry
                  inp.config.docker_registry_namespace inp.manifest.name inp.tag i } := by
        intro st1 pre hp hport
        rw [runSpecs_deployLaunch st1 pre infra tgt inp _ _ env hp, hport]
        constructor
        · simp
        · intro i hi
          rw [List.getElem?_map, List.getElem?_range hi]
          rfl
      cases hnet : inp.network_create_result with
      | none =>
        have hred : deploy_fatman st infra tgt inp =
            deployLaunch (replaceStep st inp.manifest.name inp.manifest.version).2
              (Cmd.psContainer (get_container_name
                  (fatman_resource_name inp.manifest.name inp.manifest.version) 0) ::
                (replaceStep st inp.manifest.name inp.manifest.version).1 ++ [Cmd.psPorts])
              infra tgt inp
              (fatman_resource_name inp.manifest.name inp.manifest.version)
              (get_next_fatman_port
                (replaceStep st inp.manifest.name inp.manifest.version).2.occupiedPorts)
              env := by
          simp only [deploy_fatman, hcomp, hnet]
          rw [if_neg hhost]
        rw [hred]
        exact hfinish _ _ hpre hports
      | some rc =>
        by_cases hrc : rc = 1
        · have hred : deploy_fatman st infra tgt inp =
              deployLaunch (replaceStep st inp.manifest.name inp.manifest.version).2
                (Cmd.psContainer (get_container_name
                    (fatman_resource_name inp.manifest.name inp.manifest.version) 0) ::
                  (replaceStep st inp.manifest.name inp.manifest.version).1 ++ [Cmd.psPorts])
                infra tgt inp
                (fatman_resource_name inp.manifest.name inp.manifest.version)
                (get_next_fatman_port
                  (replaceStep st inp.manifest.name inp.manifest.version).2.occupiedPorts)
                env := by
            simp only [deploy_fatman, hcomp, hnet]
            rw [if_neg hhost, if_pos hrc]
          rw [hred]
          exact hfinish _ _ hpre hports
        · exfalso
          simp only [deploy_fatman, hcomp, hnet] at hok
          rw [if_neg hhost, if_neg hrc] at hok
          simp at hok

/-- C6 witness: a 2-container deploy on an empty host launches exactly two
containers; index 0 is port-mapped, index 1 is not. -/
theorem C6_launch_topology_witness :
    (1 ≤ 2 ∧ ∃ dto, (deploy_fatman emptyHost sampleInfra "docker-daemon"
        (sampleInput 2 [])).result = Except.ok dto) ∧
    ∃ env, composeEnv (sampleInput 2 []).runtime_env_vars
        (reservedEnvVarsOf (sampleInput 2 [])) (sampleInput 2 []).plugin_vars_list =
        Except.ok env ∧
      (runSpecs (deploy_fatman emptyHost sampleInfra "docker-daemon"
          (sampleInput 2 [])).trace).length = (sampleInput 2 []).containers_num ∧
      ∀ i, i < (sampleInput 2 []).containers_num →
        (runSpecs (deploy_fatman emptyHost sampleInfra "docker-daemon"
            (sampleInput 2 [])).trace)[i]? = some
          { name := get_container_name
              (fatman_resource_name (sampleInput 2 []).manifest.name
                (sampleInput 2 []).manifest.version) i
            portMapping :=
              if i = 0 then some (get_next_fatman_port emptyHost.occupiedPorts,
                FATMAN_INTERNAL_PORT)
              else none
            env := env
            pullAlways := true
            network := "racetrack_default"
            labelFatmanName := (sampleInput 2 []).manifest.name
            labelFatmanVersion := (sampleInput 2 []).manifest.version
            image := get_fatman_image (sampleInput 2 []).config.docker_registry
              (sampleInput 2 []).config.docker_registry_namespace
              (sampleInput 2 []).manifest.name (sampleInput 2 []).tag i } :=
  ⟨⟨by decide, ⟨_, rfl⟩⟩,
   C6_launch_topology emptyHost sampleInfra "docker-daemon" (sampleInput 2 [])
     (by decide) ⟨_, rfl⟩⟩

end DockerDaemon
